import Mathlib

/-!
# libdivecomputer: the version header

A shallow embedding of `libdivecomputer/version.h` (the header shipped in the
XCFramework) and the properties of its version check.

The header defines

* the string constant `DC_VERSION` and the three integer constants
  `DC_VERSION_MAJOR`, `DC_VERSION_MINOR`, `DC_VERSION_MICRO` (lines 29-32),
* the boolean expression `DC_VERSION_CHECK(major,minor,micro)` (lines 34-38),
* the record `dc_version_t` of three `unsigned int` fields (lines 40-44),
* the prototypes of `dc_version` and `dc_version_check` (lines 46-50), whose
  bodies live in the prebuilt binary.

Values of type `unsigned int` are modelled as natural numbers.  The check only
compares its arguments with the constants `0` and `10`; when an argument is an
`unsigned int` the usual arithmetic conversions turn these non-negative
constants into the same unsigned values, so every comparison of the C
expression is the comparison of the corresponding naturals and nothing can
wrap around.
-/

namespace LibDiveComputer

/-! ## Constants of `version.h` -/

/-- Line 29: `#define DC_VERSION "0.10.0-devel"`. -/
def DC_VERSION : String := "0.10.0-devel"

/-- Line 30: `#define DC_VERSION_MAJOR 0`. -/
def DC_VERSION_MAJOR : Nat := 0

/-- Line 31: `#define DC_VERSION_MINOR 10`. -/
def DC_VERSION_MINOR : Nat := 10

/-- Line 32: `#define DC_VERSION_MICRO 0`. -/
def DC_VERSION_MICRO : Nat := 0

/-- Largest value of a 32-bit `unsigned int`. -/
def UINT_MAX : Nat := 2 ^ 32 - 1

/-! ## The version check -/

/-- Lines 34-38, the expression `DC_VERSION_CHECK(major,minor,micro)`:
```
(DC_VERSION_MAJOR > (major) ||
(DC_VERSION_MAJOR == (major) && DC_VERSION_MINOR > (minor)) ||
(DC_VERSION_MAJOR == (major) && DC_VERSION_MINOR == (minor) &&
	DC_VERSION_MICRO >= (micro)))
```
The C operators yield `1` or `0`; the result is modelled as a `Bool`. -/
def DC_VERSION_CHECK (major minor micro : Nat) : Bool :=
  decide (DC_VERSION_MAJOR > major) ||
  (decide (DC_VERSION_MAJOR = major) && decide (DC_VERSION_MINOR > minor)) ||
  (decide (DC_VERSION_MAJOR = major) && decide (DC_VERSION_MINOR = minor) &&
    decide (DC_VERSION_MICRO ≥ micro))

/-! ## The version record -/

/-- Lines 40-44: `typedef struct dc_version_t { unsigned int major, minor, micro; }`. -/
structure dc_version_t where
  major : Nat
  minor : Nat
  micro : Nat
deriving DecidableEq, Repr

/-- The version the header was generated for, as a record. -/
def compiledVersion : dc_version_t :=
  ⟨DC_VERSION_MAJOR, DC_VERSION_MINOR, DC_VERSION_MICRO⟩

/-- Modelled from the spec: the body of `dc_version` is missing (only its
prototype, lines 46-47 of `version.h`, is in the repository).  The spec says
it "writes the library's runtime version triple into the caller-supplied
output location (if non-null) and returns a human-readable version string".
The output location is an `Option`: `none` is the null pointer, `some v` a
location currently holding `v`.  The result is the location after the call
together with the returned string. -/
def dc_version (version : Option dc_version_t) : Option dc_version_t × String :=
  match version with
  | some _ => (some compiledVersion, DC_VERSION)
  | none => (none, DC_VERSION)

/-! ## Specification side: the lexicographic order and the reading of a version string -/

/-- Specification side: `v ≤ w` in lexicographic major/minor/micro order. -/
def lexLe (v w : dc_version_t) : Prop :=
  v.major < w.major ∨
  (v.major = w.major ∧ (v.minor < w.minor ∨ (v.minor = w.minor ∧ v.micro ≤ w.micro)))

instance (v w : dc_version_t) : Decidable (lexLe v w) := by
  unfold lexLe; infer_instance

/-- Specification side: split a list of characters at every occurrence of `sep`. -/
def splitOnChar (sep : Char) : List Char → List (List Char)
  | [] => [[]]
  | c :: cs =>
    if c = sep then [] :: splitOnChar sep cs
    else
      match splitOnChar sep cs with
      | [] => [[c]]
      | h :: t => (c :: h) :: t

/-- Specification side: the value of a list of decimal digits, most significant first. -/
def digitsValue (ds : List Char) : Nat :=
  ds.foldl (fun acc c => 10 * acc + (c.toNat - '0'.toNat)) 0

/-- Specification side: the number written by the leading decimal digits of a
component, `none` when the component does not start with a digit. -/
def leadingNumber (cs : List Char) : Option Nat :=
  match cs.takeWhile Char.isDigit with
  | [] => none
  | d :: ds => some (digitsValue (d :: ds))

/-- Specification side: read a version string by splitting it on `'.'` and
taking the leading decimal digits of its first three components. -/
def readVersion (s : String) : Option dc_version_t :=
  match splitOnChar '.' s.data with
  | a :: b :: c :: _ =>
    match leadingNumber a, leadingNumber b, leadingNumber c with
    | some major, some minor, some micro => some ⟨major, minor, micro⟩
    | _, _, _ => none
  | _ => none

/-! ## Auxiliary facts -/

/-- The check unfolded over the constants of the header. -/
theorem check_unfold (major minor micro : Nat) :
    DC_VERSION_CHECK major minor micro = true ↔
      major = 0 ∧ (minor < 10 ∨ (minor = 10 ∧ micro = 0)) := by
  simp only [DC_VERSION_CHECK, DC_VERSION_MAJOR, DC_VERSION_MINOR, DC_VERSION_MICRO,
    Bool.or_eq_true, Bool.and_eq_true, decide_eq_true_eq]
  omega

/-- The check is `false` exactly when it is not `true`. -/
theorem check_false_iff (major minor micro : Nat) :
    DC_VERSION_CHECK major minor micro = false ↔
      ¬ (major = 0 ∧ (minor < 10 ∨ (minor = 10 ∧ micro = 0))) := by
  rw [← check_unfold, Bool.not_eq_true]

/-- The order `lexLe` is the lexicographic order of Mathlib on triples. -/
theorem lexLe_iff_toLex (v w : dc_version_t) :
    lexLe v w ↔
      toLex (v.major, toLex (v.minor, v.micro)) ≤ toLex (w.major, toLex (w.minor, w.micro)) := by
  simp [lexLe, Prod.Lex.le_iff]

/-- The order `lexLe` is reflexive. -/
theorem lexLe_refl (v : dc_version_t) : lexLe v v := by
  unfold lexLe; omega

/-- The order `lexLe` is transitive. -/
theorem lexLe_trans (u v w : dc_version_t) (h₁ : lexLe u v) (h₂ : lexLe v w) : lexLe u w := by
  unfold lexLe at *; omega

/-- The order `lexLe` is total. -/
theorem lexLe_total (v w : dc_version_t) : lexLe v w ∨ lexLe w v := by
  unfold lexLe; omega

/-- The order `lexLe` is antisymmetric. -/
theorem lexLe_antisymm (v w : dc_version_t) (h₁ : lexLe v w) (h₂ : lexLe w v) : v = w := by
  cases v; cases w
  simp only [lexLe] at h₁ h₂
  simp only [dc_version_t.mk.injEq]
  omega

/-! ## The claims -/

/-- C1: the compiled version is `(0, 10, 0)`, and for every triple
`(major, minor, micro)` the check `DC_VERSION_CHECK` is true if and only if
the triple is at most the compiled version in lexicographic
major/minor/micro order. -/
theorem DC_VERSION_CHECK_iff_lexLe (major minor micro : Nat) :
    compiledVersion = ⟨0, 10, 0⟩ ∧
    (DC_VERSION_CHECK major minor micro = true ↔
      lexLe ⟨major, minor, micro⟩ compiledVersion) := by
  refine ⟨rfl, ?_⟩
  rw [check_unfold]
  simp only [lexLe, compiledVersion, DC_VERSION_MAJOR, DC_VERSION_MINOR, DC_VERSION_MICRO]
  omega

/-- C2: the check is reflexive: on the triple of the header's own constants,
which is `(0, 10, 0)`, it is true. -/
theorem DC_VERSION_CHECK_reflexive :
    DC_VERSION_CHECK DC_VERSION_MAJOR DC_VERSION_MINOR DC_VERSION_MICRO = true ∧
    (DC_VERSION_MAJOR, DC_VERSION_MINOR, DC_VERSION_MICRO) = (0, 10, 0) ∧
    DC_VERSION_CHECK 0 10 0 = true := by
  decide

/-- C3: the check is downward closed: when it is true on `(a, b, c)` and
`(a', b', c')` is at most `(a, b, c)` lexicographically, it is true on
`(a', b', c')`. -/
theorem DC_VERSION_CHECK_monotonic (a b c a' b' c' : Nat)
    (hcheck : DC_VERSION_CHECK a b c = true)
    (hle : lexLe ⟨a', b', c'⟩ ⟨a, b, c⟩) :
    DC_VERSION_CHECK a' b' c' = true := by
  rw [check_unfold] at hcheck ⊢
  simp only [lexLe] at hle
  omega

/-- Witness of C3 at `(0, 10, 0)` and the smaller triple `(0, 9, 7)`. -/
theorem DC_VERSION_CHECK_monotonic_witness :
    DC_VERSION_CHECK 0 10 0 = true ∧ lexLe ⟨0, 9, 7⟩ ⟨0, 10, 0⟩ ∧
    DC_VERSION_CHECK 0 9 7 = true :=
  ⟨by decide, by decide,
    DC_VERSION_CHECK_monotonic 0 10 0 0 9 7 (by decide) (by decide)⟩

/-- C4: the version string is `"0.10.0-devel"`; split on `'.'` its components
are `0`, `10` and `0-devel`; the leading decimal digits of the first three
components read as `(0, 10, 0)`, which is the triple of the constants
`DC_VERSION_MAJOR`, `DC_VERSION_MINOR`, `DC_VERSION_MICRO`; and `dc_version`
returns that string in any case and writes that triple into a non-null
output, so that the string it returns reads as the triple it writes. -/
theorem version_triple_consistent_with_string :
    DC_VERSION = "0.10.0-devel" ∧
    splitOnChar '.' DC_VERSION.data = ["0".data, "10".data, "0-devel".data] ∧
    readVersion DC_VERSION = some ⟨0, 10, 0⟩ ∧
    readVersion DC_VERSION =
      some ⟨DC_VERSION_MAJOR, DC_VERSION_MINOR, DC_VERSION_MICRO⟩ ∧
    (dc_version none).2 = DC_VERSION ∧ (dc_version none).1 = none ∧
    ∀ v : dc_version_t,
      (dc_version (some v)).2 = DC_VERSION ∧
      (dc_version (some v)).1 =
        some ⟨DC_VERSION_MAJOR, DC_VERSION_MINOR, DC_VERSION_MICRO⟩ ∧
      readVersion (dc_version (some v)).2 = (dc_version (some v)).1 := by
  refine ⟨rfl, by decide, by decide, by decide, rfl, rfl, ?_⟩
  intro v
  refine ⟨rfl, rfl, ?_⟩
  show readVersion DC_VERSION = some compiledVersion
  decide

/-- C5: the check is true exactly when `major = 0` and either `minor < 10` or
`minor = 10` and `micro = 0`; it is false whenever `major ≥ 1`; it is true on
`(0, minor, micro)` whenever `minor < 10`; it is false on `(0, 10, 1)`, and
every triple on which it is false is at least `(0, 10, 1)` lexicographically. -/
theorem DC_VERSION_CHECK_characterisation (major minor micro : Nat) :
    (DC_VERSION_CHECK major minor micro = true ↔
      major = 0 ∧ (minor < 10 ∨ (minor = 10 ∧ micro = 0))) ∧
    (1 ≤ major → DC_VERSION_CHECK major minor micro = false) ∧
    (minor < 10 → DC_VERSION_CHECK 0 minor micro = true) ∧
    DC_VERSION_CHECK 0 10 1 = false ∧
    (DC_VERSION_CHECK major minor micro = false →
      lexLe ⟨0, 10, 1⟩ ⟨major, minor, micro⟩) := by
  refine ⟨check_unfold major minor micro, ?_, ?_, by decide, ?_⟩
  · intro h
    rw [check_false_iff]
    omega
  · intro h
    rw [check_unfold]
    omega
  · intro h
    rw [check_false_iff] at h
    simp only [lexLe]
    omega

/-- Witness of C5 at `(1, 3, UINT_MAX)`: the triple has `major ≥ 1` and
`minor < 10` and is rejected, while `(0, 3, UINT_MAX)` is accepted. -/
theorem DC_VERSION_CHECK_characterisation_witness :
    (1 ≤ 1 ∧ DC_VERSION_CHECK 1 3 UINT_MAX = false) ∧
    (3 < 10 ∧ DC_VERSION_CHECK 0 3 UINT_MAX = true) ∧
    lexLe ⟨0, 10, 1⟩ ⟨1, 3, UINT_MAX⟩ :=
  ⟨⟨by decide, (DC_VERSION_CHECK_characterisation 1 3 UINT_MAX).2.1 (by decide)⟩,
   ⟨by decide, (DC_VERSION_CHECK_characterisation 1 3 UINT_MAX).2.2.1 (by decide)⟩,
   (DC_VERSION_CHECK_characterisation 1 3 UINT_MAX).2.2.2.2
     ((DC_VERSION_CHECK_characterisation 1 3 UINT_MAX).2.1 (by decide))⟩

end LibDiveComputer
